import Mathlib

/-!
# k8s-manager: deploy and waitForPods

A shallow embedding of `main.go` (`deploy`, lines 61-98, and `waitForPods`,
lines 99-128).  Every call that leaves the process (the file system, the
apps/v1 deployments client, the label-selector library, the core/v1 pods
client, `time.Sleep`, `fmt.Printf`) is a transition on an explicit environment
state, and every cluster call, sleep and progress line is recorded in a log,
so that statements about which calls are made, and in which order, are
statements about the value `deploy` and `waitForPods` compute.
-/

namespace K8sManager

/-! ## Data model -/

/-- The Go `map[string]string` of labels; it is only ever passed around. -/
abbrev Labels := List (String × String)

/-- The part of `v1.PodTemplateSpec` the program reads: `Template.Labels`. -/
structure PodTemplateSpec where
  Labels : Labels
deriving DecidableEq

/-- The part of `v1.DeploymentSpec` the program reads.  `Replicas` is `*int32`
in Go: `none` is the nil pointer. -/
structure DeploymentSpec where
  Replicas : Option Int
  Template : PodTemplateSpec
deriving DecidableEq

/-- The part of `v1.Deployment` the program reads. -/
structure Deployment where
  Name : String
  Namespace : String
  Spec : DeploymentSpec
deriving DecidableEq

/-- The value `pod.Status` of a pod, reduced to its `Phase`. -/
structure PodStatus where
  Phase : String
deriving DecidableEq

/-- One item of `podList.Items`. -/
structure Pod where
  Status : PodStatus
deriving DecidableEq

/-- What `Decode` hands back as `obj`: the type switch of lines 74-79 only
tells a `*v1.Deployment` from everything else. -/
inductive Object where
  | deployment (d : Deployment)
  | other
deriving DecidableEq

/-- A non-nil Go `error` returned by the cluster client: what
`errors.IsNotFound` answers on it and what `%s` prints for it. -/
structure StatusError where
  IsNotFound : Bool
  Error : String
deriving DecidableEq

/-- How a Go function of result type `(α, error)` can end: with a value and a
nil error, with a non-nil error carrying a message, or with a run-time panic
(the dereference of a nil pointer). -/
inductive GoResult (α : Type) where
  | ok (a : α)
  | error (msg : String)
  | panic (msg : String)
deriving DecidableEq

/-- What the program does to the outside, in order: the cluster calls, each
with the namespace given to `Deployments(..)` or `Pods(..)`, the progress line,
and the sleep between two ticks. -/
inductive Event where
  | get (ns name : String)
  | create (ns : String) (d : Deployment)
  | update (ns : String) (d : Deployment)
  | list (ns selector : String)
  | printf (line : String)
  | sleep (seconds : Nat)
deriving DecidableEq

/-- The collaborators of the program over an environment state `σ`.  Each one
answers from the current state and leaves a new state, so the environment may
answer differently at every call. -/
structure World (σ : Type) where
  /-- The call `os.ReadFile(path)`. -/
  ReadFile : String → σ → Except String String × σ
  /-- The call `scheme.Codecs.UniversalDeserializer().Decode(bytes, nil, nil)`:
  the object and the printed group-version-kind, or the error message. -/
  Decode : String → Except String (Object × String)
  /-- The call `client.AppsV1().Deployments(ns).Get(ctx, name, ..)`. -/
  Get : String → String → σ → Except StatusError Deployment × σ
  /-- The call `client.AppsV1().Deployments(ns).Create(ctx, deployment, ..)`. -/
  Create : String → Deployment → σ → Except StatusError Deployment × σ
  /-- The call `client.AppsV1().Deployments(ns).Update(ctx, deployment, ..)`. -/
  Update : String → Deployment → σ → Except StatusError Deployment × σ
  /-- The call `labels.ValidatedSelectorFromSet(set)` followed by `.String()`. -/
  ValidatedSelectorFromSet : Labels → σ → Except String String × σ
  /-- The call `time.Sleep(n * time.Second)`. -/
  Sleep : Nat → σ → σ
  /-- The call `client.CoreV1().Pods(ns).List(ctx, ListOptions{LabelSelector})`. -/
  List : String → String → σ → Except StatusError (List Pod) × σ

/-- The outcome of running a function of the program: what it returned, the
environment it left, and what it did to the outside. -/
structure Run (σ α : Type) where
  result : α
  state : σ
  calls : List Event

/-! ## Error messages -/

/-- The places of `main.go` that build an error with `fmt.Errorf`, named after
the call whose failure they report (lines 66, 71, 78, 89, 85, 94, 103, 110). -/
inductive ErrorSite where
  | readFile
  | decode
  | unrecognizedType
  | get
  | create
  | update
  | validatedSelectorFromSet
  | podList
deriving DecidableEq

/-- The `fmt.Errorf` format of each site applied to the printed underlying
error (for `unrecognizedType`, to the printed group-version-kind). -/
def errorf : ErrorSite → String → String
  | .readFile, err => "readfile error: " ++ err
  | .decode, err => "Decode error: " ++ err
  | .unrecognizedType, gvk => "Unrecognized type: " ++ gvk ++ "\n"
  | .get, err => "deployment get error: " ++ err
  | .create, err => "deployment error: " ++ err
  | .update, err => "deployment error: " ++ err
  | .validatedSelectorFromSet, err => "ValidatedSelectorFromSet error: " ++ err
  | .podList, err => "pod list error: " ++ err

/-! ## deploy -/

/-- Lines 87 and 96: `return deploymentResponse.Spec.Template.Labels,
*deploymentResponse.Spec.Replicas, nil`.  Dereferencing a nil `Replicas`
panics. -/
def returnResponse (deploymentResponse : Deployment) : GoResult (Labels × Int) :=
  match deploymentResponse.Spec.Replicas with
  | some replicas => .ok (deploymentResponse.Spec.Template.Labels, replicas)
  | none => .panic "runtime error: invalid memory address or nil pointer dereference"

/-- The function `deploy` of `main.go`, lines 61-98. -/
def deploy {σ : Type} (w : World σ) (s : σ) : Run σ (GoResult (Labels × Int)) :=
  match w.ReadFile "app.yaml" s with
  | (.error err, s) => ⟨.error (errorf .readFile err), s, []⟩
  | (.ok appFile, s) =>
    match w.Decode appFile with
    | .error err => ⟨.error (errorf .decode err), s, []⟩
    | .ok (.other, groupVersionKind) =>
      ⟨.error (errorf .unrecognizedType groupVersionKind), s, []⟩
    | .ok (.deployment deployment, _) =>
      match w.Get "default" deployment.Name s with
      | (.error err, s) =>
        if err.IsNotFound then
          match w.Create "default" deployment s with
          | (.error err, s) =>
            ⟨.error (errorf .create err.Error), s,
              [.get "default" deployment.Name, .create "default" deployment]⟩
          | (.ok deploymentResponse, s) =>
            ⟨returnResponse deploymentResponse, s,
              [.get "default" deployment.Name, .create "default" deployment]⟩
        else
          ⟨.error (errorf .get err.Error), s, [.get "default" deployment.Name]⟩
      | (.ok _, s) =>
        match w.Update "default" deployment s with
        | (.error err, s) =>
          ⟨.error (errorf .update err.Error), s,
            [.get "default" deployment.Name, .update "default" deployment]⟩
        | (.ok deploymentResponse, s) =>
          ⟨returnResponse deploymentResponse, s,
            [.get "default" deployment.Name, .update "default" deployment]⟩

/-! ## waitForPods -/

/-- Lines 112-117: the counter `podsRunning` after the loop over
`podList.Items`. -/
def podsRunning (items : List Pod) : Int :=
  items.foldl (fun n pod => if pod.Status.Phase = "Running" then n + 1 else n) 0

/-- Line 121: the condition under which the loop is left with `break`.
`expectedPods` is an `int32` widened by `int(..)`, which changes no value. -/
def readyToBreak (podsRunning len expectedPods : Int) : Bool :=
  decide (podsRunning > 0) && podsRunning == len && podsRunning == expectedPods

/-- Line 119: the progress line. -/
def progressLine (podsRunning len : Int) : String :=
  "Waiting for pods to become ready (running " ++ toString podsRunning ++ " / "
    ++ toString len ++ ")\n"

/-- The function `waitForPods` of `main.go`, lines 99-128.  The Go loop has no
bound; `fuel` is the number of ticks that are run, and `none` is the answer of
a call that is still polling after them. -/
def waitForPods {σ : Type} (w : World σ) (deploymentLabels : Labels) (expectedPods : Int) :
    Nat → σ → Run σ (Option (GoResult Unit))
  | 0, s => ⟨none, s, []⟩
  | fuel + 1, s =>
    match w.ValidatedSelectorFromSet deploymentLabels s with
    | (.error err, s) => ⟨some (.error (errorf .validatedSelectorFromSet err)), s, []⟩
    | (.ok validatedLabels, s) =>
      match w.List "default" validatedLabels s with
      | (.error err, s) =>
        ⟨some (.error (errorf .podList err.Error)), s, [.list "default" validatedLabels]⟩
      | (.ok items, s) =>
        let tick : List Event :=
          [.list "default" validatedLabels,
           .printf (progressLine (podsRunning items) (items.length : Int))]
        if readyToBreak (podsRunning items) (items.length : Int) expectedPods then
          ⟨some (.ok ()), s, tick⟩
        else
          let rest := waitForPods w deploymentLabels expectedPods fuel (w.Sleep 5 s)
          ⟨rest.result, rest.state, tick ++ .sleep 5 :: rest.calls⟩

/-! ## Reference definitions and environments used in the statements -/

/-- The number of listed pods whose phase equals "Running". -/
def runningCount (items : List Pod) : Nat :=
  items.countP (fun pod => pod.Status.Phase = "Running")

/-- The number of `create` calls in a log. -/
def creates (calls : List Event) : Nat :=
  calls.countP (fun c => match c with | .create _ _ => true | _ => false)

/-- The number of `update` calls in a log. -/
def updates (calls : List Event) : Nat :=
  calls.countP (fun c => match c with | .update _ _ => true | _ => false)

/-- The number of `list` calls in a log. -/
def lists (calls : List Event) : Nat :=
  calls.countP (fun c => match c with | .list _ _ => true | _ => false)

/-- The number of sleeps in a log. -/
def sleeps (calls : List Event) : Nat :=
  calls.countP (fun c => match c with | .sleep _ => true | _ => false)

/-- What one tick of the poller meets: the selector cannot be built, the list
call fails, or the list call answers with pods. -/
inductive TickOutcome where
  | selectorFails (err : String)
  | listFails (err : StatusError)
  | listed (items : List Pod)
deriving DecidableEq

/-- A printed selector for a label set, used by the scripted environment. -/
def selectorString (set : Labels) : String :=
  ",".intercalate (set.map (fun kv => kv.1 ++ "=" ++ kv.2))

/-- An environment that plays a given sequence of tick outcomes: its state is
the part of the sequence not yet played.  Building the selector fails exactly
when the next outcome says so, and the list call plays the next outcome. -/
def scriptWorld : World (List TickOutcome) where
  ReadFile := fun _ s => (.error "open app.yaml: no such file or directory", s)
  Decode := fun _ => .error "no kind"
  Get := fun _ _ s => (.error ⟨false, "not scripted"⟩, s)
  Create := fun _ _ s => (.error ⟨false, "not scripted"⟩, s)
  Update := fun _ _ s => (.error ⟨false, "not scripted"⟩, s)
  ValidatedSelectorFromSet := fun set s =>
    match s with
    | .selectorFails err :: rest => (.error err, rest)
    | _ => (.ok (selectorString set), s)
  Sleep := fun _ s => s
  List := fun _ _ s =>
    match s with
    | .listFails err :: rest => (.error err, rest)
    | .listed items :: rest => (.ok items, rest)
    | _ => (.error ⟨false, "script exhausted"⟩, s)

/-- A tick outcome at which the poller has to stop: a failure, or pods that
satisfy the readiness predicate for the expected count. -/
def TickOutcome.stops (expected : Int) : TickOutcome → Prop
  | .selectorFails _ => True
  | .listFails _ => True
  | .listed items =>
    runningCount items > 0 ∧ runningCount items = items.length
      ∧ (runningCount items : Int) = expected

instance (expected : Int) (o : TickOutcome) : Decidable (o.stops expected) := by
  cases o <;> unfold TickOutcome.stops <;> infer_instance

/-- What the poller has to return at a tick outcome at which it stops. -/
def TickOutcome.verdict : TickOutcome → GoResult Unit
  | .selectorFails err => .error ("ValidatedSelectorFromSet error: " ++ err)
  | .listFails err => .error ("pod list error: " ++ err.Error)
  | .listed _ => .ok ()

/-- The list calls a tick outcome costs: none when the selector cannot be
built, one otherwise. -/
def TickOutcome.listCalls : TickOutcome → Nat
  | .selectorFails _ => 0
  | _ => 1

/-- The cluster calls and sleeps of a log, in order: the log without its
progress lines. -/
def external (calls : List Event) : List Event :=
  calls.filter (fun c => match c with | .printf _ => false | _ => true)

/-- The state of the recording scripted environment: the tick outcomes not yet
played, and the list calls and sleeps the environment has received so far, in
the order it received them. -/
structure ScriptState where
  script : List TickOutcome
  received : List Event
deriving DecidableEq

/-- An environment that plays a given sequence of tick outcomes and records
what it is asked.  Building the selector fails exactly when the next outcome
says so; each list call plays the next outcome and is recorded with the namespace and the
selector it was given; each sleep is recorded with its
duration. -/
def recordingWorld : World ScriptState where
  ReadFile := fun _ s => (.error "open app.yaml: no such file or directory", s)
  Decode := fun _ => .error "no kind"
  Get := fun _ _ s => (.error ⟨false, "not scripted"⟩, s)
  Create := fun _ _ s => (.error ⟨false, "not scripted"⟩, s)
  Update := fun _ _ s => (.error ⟨false, "not scripted"⟩, s)
  ValidatedSelectorFromSet := fun set s =>
    match s.script with
    | .selectorFails err :: rest => (.error err, ⟨rest, s.received⟩)
    | _ => (.ok (selectorString set), s)
  Sleep := fun n s => ⟨s.script, s.received ++ [.sleep n]⟩
  List := fun ns selector s =>
    match s.script with
    | .listFails err :: rest => (.error err, ⟨rest, s.received ++ [.list ns selector]⟩)
    | .listed items :: rest => (.ok items, ⟨rest, s.received ++ [.list ns selector]⟩)
    | _ => (.error ⟨false, "script exhausted"⟩, ⟨s.script, s.received ++ [.list ns selector]⟩)

/-- What the poller has to do at a tick outcome, before it returns or sleeps:
nothing when the selector cannot be built, the list call when that call fails,
the list call and the progress line when pods are listed. -/
def TickOutcome.events (labels : Labels) : TickOutcome → List Event
  | .selectorFails _ => []
  | .listFails _ => [.list "default" (selectorString labels)]
  | .listed items =>
    [.list "default" (selectorString labels),
     .printf (progressLine (runningCount items : Int) (items.length : Int))]

/-- What the poller has to do over ticks at none of which it stops: at each
one the events of the tick, then one sleep of five seconds. -/
def pollingLog (labels : Labels) : List TickOutcome → List Event
  | [] => []
  | x :: rest => x.events labels ++ .sleep 5 :: pollingLog labels rest

/-- A pod in the given phase. -/
def podIn (phase : String) : Pod := ⟨⟨phase⟩⟩

/-- An environment without state that answers every call with a fixed
response: the file contents, the decoded object, and the answers of `Get`,
`Create` and `Update`. -/
def cannedWorld (file : Except String String) (obj : Except String (Object × String))
    (get create update : Except StatusError Deployment) : World Unit where
  ReadFile := fun _ s => (file, s)
  Decode := fun _ => obj
  Get := fun _ _ s => (get, s)
  Create := fun _ _ s => (create, s)
  Update := fun _ _ s => (update, s)
  ValidatedSelectorFromSet := fun set s => (.ok (selectorString set), s)
  Sleep := fun _ s => s
  List := fun _ _ s => (.ok [], s)

/-- The resource store of a cluster: at most one resource per key
(namespace, name). -/
abbrev Store := String → String → Option Deployment

/-- The store with no resource. -/
def Store.empty : Store := fun _ _ => none

/-- The store with the resource `d` put under the key (`ns`, `name`), whatever
was there before. -/
def Store.put (st : Store) (ns name : String) (d : Deployment) : Store :=
  fun ns' name' => if ns' = ns ∧ name' = name then some d else st ns' name'

/-- An environment whose cluster is a resource store and whose specification
file decodes to `desired`.  `Get` reads the key it is given; `Create` stores
the given resource under its own key (its namespace and its name) and answers
with it; `Update` replaces the resource stored under the given resource's own
key by the given one and answers with it.  Creating over an existing resource
and updating a missing one fail. -/
def clusterWorld (desired : Deployment) : World Store where
  ReadFile := fun _ st => (.ok "app.yaml", st)
  Decode := fun _ => .ok (.deployment desired, "apps/v1, Kind=Deployment")
  Get := fun ns name st =>
    match st ns name with
    | some d => (.ok d, st)
    | none => (.error ⟨true, "deployments.apps not found"⟩, st)
  Create := fun _ d st =>
    match st d.Namespace d.Name with
    | some _ => (.error ⟨false, "deployments.apps already exists"⟩, st)
    | none => (.ok d, st.put d.Namespace d.Name d)
  Update := fun _ d st =>
    match st d.Namespace d.Name with
    | some _ => (.ok d, st.put d.Namespace d.Name d)
    | none => (.error ⟨true, "deployments.apps not found"⟩, st)
  ValidatedSelectorFromSet := fun set st => (.ok (selectorString set), st)
  Sleep := fun _ st => st
  List := fun _ _ st => (.ok [], st)

/-- The namespace a cluster call is addressed to. -/
def Event.namespaceArg : Event → Option String
  | .get ns _ => some ns
  | .create ns _ => some ns
  | .update ns _ => some ns
  | .list ns _ => some ns
  | _ => none

/-- The resource name a deployments call is addressed to. -/
def Event.nameArg : Event → Option String
  | .get _ name => some name
  | .create _ d => some d.Name
  | .update _ d => some d.Name
  | _ => none

/-- The deployment of the end-to-end scenario: "web" in namespace "default",
three replicas, pod labels app=web. -/
def webDeployment : Deployment :=
  ⟨"web", "default", ⟨some 3, ⟨[("app", "web")]⟩⟩⟩

/-- The same deployment declared in namespace "prod". -/
def prodDeployment : Deployment :=
  ⟨"web", "prod", ⟨some 3, ⟨[("app", "web")]⟩⟩⟩

/-- A resource as a cluster may answer it: five replicas and pod labels
app=web, tier=front. -/
def answeredDeployment : Deployment :=
  ⟨"web", "default", ⟨some 5, ⟨[("app", "web"), ("tier", "front")]⟩⟩⟩

/-- A resource whose `Replicas` pointer is nil. -/
def unsetDeployment : Deployment :=
  ⟨"web", "default", ⟨none, ⟨[("app", "web")]⟩⟩⟩

/-! ## Properties of the poller -/

theorem foldl_running (items : List Pod) (n : Int) :
    items.foldl (fun n pod => if pod.Status.Phase = "Running" then n + 1 else n) n
      = n + (runningCount items : Int) := by
  induction items generalizing n with
  | nil => simp [runningCount]
  | cons pod rest ih =>
    simp only [List.foldl_cons, ih, runningCount, List.countP_cons]
    by_cases h : pod.Status.Phase = "Running"
    · simp [h]; ring
    · simp [h]

theorem podsRunning_eq (items : List Pod) : podsRunning items = (runningCount items : Int) := by
  simp [podsRunning, foldl_running]

theorem runningCount_le (items : List Pod) : runningCount items ≤ items.length :=
  List.countP_le_length _

theorem readyToBreak_iff (items : List Pod) (expected : Int) :
    readyToBreak (podsRunning items) (items.length : Int) expected = true ↔
      runningCount items > 0 ∧ runningCount items = items.length
        ∧ (runningCount items : Int) = expected := by
  simp [readyToBreak, podsRunning_eq, and_assoc]

/-- Claim C1.  A tick of `waitForPods` whose selector is built and whose list
call answers with `items` ends the loop with success exactly when the number of
pods in phase "Running" is positive, equals the number of listed pods and
equals the expected count; the four rows of the readiness table evaluate to
not ready, not ready, not ready and ready. -/
theorem waitForPods_tick_success_iff {σ : Type} (w : World σ) (labels : Labels)
    (expected : Int) (s s₁ s₂ : σ) (sel : String) (items : List Pod)
    (hsel : w.ValidatedSelectorFromSet labels s = (.ok sel, s₁))
    (hlist : w.List "default" sel s₁ = (.ok items, s₂)) :
    ((waitForPods w labels expected 1 s).result = some (.ok ()) ↔
        runningCount items > 0 ∧ runningCount items = items.length
          ∧ (runningCount items : Int) = expected)
      ∧ readyToBreak 0 0 3 = false ∧ readyToBreak 2 3 3 = false
      ∧ readyToBreak 3 3 2 = false ∧ readyToBreak 3 3 3 = true := by
  refine ⟨?_, by decide, by decide, by decide, by decide⟩
  rw [← readyToBreak_iff]
  simp only [waitForPods, hsel, hlist]
  split <;> simp_all

theorem waitForPods_tick_success_iff_witness :
    ((waitForPods scriptWorld [("app", "web")] 3 1
          [.listed [podIn "Running", podIn "Running", podIn "Running"]]).result
        = some (.ok ()) ↔
        runningCount [podIn "Running", podIn "Running", podIn "Running"] > 0
          ∧ runningCount [podIn "Running", podIn "Running", podIn "Running"]
              = [podIn "Running", podIn "Running", podIn "Running"].length
          ∧ (runningCount [podIn "Running", podIn "Running", podIn "Running"] : Int) = 3)
      ∧ readyToBreak 0 0 3 = false ∧ readyToBreak 2 3 3 = false
      ∧ readyToBreak 3 3 2 = false ∧ readyToBreak 3 3 3 = true :=
  waitForPods_tick_success_iff scriptWorld [("app", "web")] 3
    [.listed [podIn "Running", podIn "Running", podIn "Running"]] _ [] "app=web" _ rfl rfl

/-- Claim C10.  The counter of running pods lies between zero and the number
of listed pods, so with an expected count that is zero or negative the loop
condition of line 121 is false for every list of pods, and `waitForPods`
either is still polling or has returned an error: it never returns success. -/
theorem waitForPods_nonpositive_expected_never_succeeds {σ : Type} (w : World σ)
    (labels : Labels) (expected : Int) (fuel : Nat) (s : σ) (h : expected ≤ 0) :
    (∀ items : List Pod, 0 ≤ podsRunning items ∧ podsRunning items ≤ (items.length : Int))
      ∧ (∀ items : List Pod,
          readyToBreak (podsRunning items) (items.length : Int) expected = false)
      ∧ ((waitForPods w labels expected fuel s).result = none
          ∨ ∃ msg, (waitForPods w labels expected fuel s).result = some (.error msg)) := by
  have hnot : ∀ items : List Pod,
      readyToBreak (podsRunning items) (items.length : Int) expected = false := by
    intro items
    rw [Bool.eq_false_iff]
    intro hready
    have := (readyToBreak_iff items expected).1 hready
    omega
  refine ⟨?_, hnot, ?_⟩
  · intro items
    have := runningCount_le items
    rw [podsRunning_eq]
    omega
  · induction fuel generalizing s with
    | zero => left; rfl
    | succ fuel ih =>
      simp only [waitForPods]
      split
      · right; exact ⟨_, rfl⟩
      · split
        · right; exact ⟨_, rfl⟩
        · simp only [hnot, Bool.false_eq_true, if_false]
          exact ih _

theorem waitForPods_nonpositive_expected_never_succeeds_witness :
    (0 : Int) ≤ 0
      ∧ ((waitForPods scriptWorld [("app", "web")] 0 2
            [.listed [], .listFails ⟨false, "connection refused"⟩]).result = none
          ∨ ∃ msg, (waitForPods scriptWorld [("app", "web")] 0 2
            [.listed [], .listFails ⟨false, "connection refused"⟩]).result
              = some (.error msg)) :=
  ⟨by decide,
    (waitForPods_nonpositive_expected_never_succeeds scriptWorld [("app", "web")] 0 2
      [.listed [], .listFails ⟨false, "connection refused"⟩] (by decide)).2.2⟩

/-! ### The poller on a sequence of tick outcomes -/

theorem waitForPods_continue {σ : Type} (w : World σ) (labels : Labels) (expected : Int)
    (fuel : Nat) (s s₁ s₂ : σ) (sel : String) (items : List Pod)
    (hsel : w.ValidatedSelectorFromSet labels s = (.ok sel, s₁))
    (hlist : w.List "default" sel s₁ = (.ok items, s₂))
    (hnot : readyToBreak (podsRunning items) (items.length : Int) expected = false) :
    waitForPods w labels expected (fuel + 1) s =
      ⟨(waitForPods w labels expected fuel (w.Sleep 5 s₂)).result,
        (waitForPods w labels expected fuel (w.Sleep 5 s₂)).state,
        [.list "default" sel, .printf (progressLine (podsRunning items) (items.length : Int)),
          .sleep 5] ++ (waitForPods w labels expected fuel (w.Sleep 5 s₂)).calls⟩ := by
  simp [waitForPods, hsel, hlist, hnot]

theorem lists_append (a b : List Event) : lists (a ++ b) = lists a + lists b := by
  simp [lists]

theorem sleeps_append (a b : List Event) : sleeps (a ++ b) = sleeps a + sleeps b := by
  simp [sleeps]

theorem external_append (a b : List Event) : external (a ++ b) = external a ++ external b := by
  simp [external]

theorem waitForPods_recording_continue (labels : Labels) (expected : Int) (fuel : Nat)
    (x : TickOutcome) (rest : List TickOutcome) (received : List Event)
    (hx : ¬ x.stops expected) :
    lists (x.events labels ++ [.sleep 5]) = 1 ∧ sleeps (x.events labels ++ [.sleep 5]) = 1 ∧
      waitForPods recordingWorld labels expected (fuel + 1) ⟨x :: rest, received⟩ =
        ⟨(waitForPods recordingWorld labels expected fuel
            ⟨rest, received ++ external (x.events labels ++ [.sleep 5])⟩).result,
          (waitForPods recordingWorld labels expected fuel
            ⟨rest, received ++ external (x.events labels ++ [.sleep 5])⟩).state,
          (x.events labels ++ [.sleep 5]) ++ (waitForPods recordingWorld labels expected fuel
            ⟨rest, received ++ external (x.events labels ++ [.sleep 5])⟩).calls⟩ := by
  cases x with
  | selectorFails err => exact absurd trivial hx
  | listFails err => exact absurd trivial hx
  | listed items =>
    have hnot : readyToBreak (podsRunning items) (items.length : Int) expected = false := by
      rw [Bool.eq_false_iff]
      intro hready
      exact hx ((readyToBreak_iff items expected).1 hready)
    refine ⟨by simp [lists, TickOutcome.events], by simp [sleeps, TickOutcome.events], ?_⟩
    rw [waitForPods_continue recordingWorld labels expected fuel ⟨.listed items :: rest, received⟩
      ⟨.listed items :: rest, received⟩
      ⟨rest, received ++ [Event.list "default" (selectorString labels)]⟩
      (selectorString labels) items rfl rfl hnot]
    simp [recordingWorld, TickOutcome.events, external, podsRunning_eq]

theorem waitForPods_recording_stop (labels : Labels) (expected : Int) (fuel : Nat)
    (o : TickOutcome) (post : List TickOutcome) (received : List Event)
    (ho : o.stops expected) :
    waitForPods recordingWorld labels expected (fuel + 1) ⟨o :: post, received⟩ =
      ⟨some o.verdict, ⟨post, received ++ external (o.events labels)⟩, o.events labels⟩ := by
  cases o with
  | selectorFails err =>
    simp [waitForPods, recordingWorld, TickOutcome.verdict, TickOutcome.events, errorf,
      external]
  | listFails err =>
    simp [waitForPods, recordingWorld, TickOutcome.verdict, TickOutcome.events, errorf,
      external]
  | listed items =>
    have hready := (readyToBreak_iff items expected).2 ho
    rw [podsRunning_eq] at hready
    simp [waitForPods, recordingWorld, TickOutcome.verdict, TickOutcome.events, hready,
      external, podsRunning_eq]

theorem lists_events (labels : Labels) (o : TickOutcome) :
    lists (o.events labels) = o.listCalls ∧ sleeps (o.events labels) = 0 := by
  cases o <;> simp [lists, sleeps, TickOutcome.events, TickOutcome.listCalls]

theorem waitForPods_recording_reach (labels : Labels) (expected : Int)
    (pre : List TickOutcome) (o : TickOutcome) (post : List TickOutcome) (fuel : Nat)
    (received : List Event)
    (hpre : ∀ x ∈ pre, ¬ x.stops expected) (ho : o.stops expected)
    (hfuel : pre.length < fuel) :
    waitForPods recordingWorld labels expected fuel ⟨pre ++ o :: post, received⟩ =
        ⟨some o.verdict,
          ⟨post, received ++ external (pollingLog labels pre ++ o.events labels)⟩,
          pollingLog labels pre ++ o.events labels⟩
      ∧ lists (pollingLog labels pre ++ o.events labels) = pre.length + o.listCalls
      ∧ sleeps (pollingLog labels pre ++ o.events labels) = pre.length := by
  induction pre generalizing fuel received with
  | nil =>
    obtain ⟨fuel, rfl⟩ : ∃ n, fuel = n + 1 := ⟨fuel - 1, by simp at hfuel; omega⟩
    have h := lists_events labels o
    simp [pollingLog, waitForPods_recording_stop labels expected fuel o post received ho, h.1,
      h.2]
  | cons x pre ih =>
    obtain ⟨fuel, rfl⟩ : ∃ n, fuel = n + 1 := ⟨fuel - 1, by simp at hfuel; omega⟩
    obtain ⟨hl, hs, heq⟩ := waitForPods_recording_continue labels expected fuel x
      (pre ++ o :: post) received (hpre x (List.mem_cons_self _ _))
    obtain ⟨hrun, hlists, hsleeps⟩ := ih fuel
      (received ++ external (x.events labels ++ [.sleep 5]))
      (fun y hy => hpre y (List.mem_cons_of_mem _ hy)) (by simp at hfuel; omega)
    have hlog : pollingLog labels (x :: pre) ++ o.events labels
        = (x.events labels ++ [.sleep 5]) ++ (pollingLog labels pre ++ o.events labels) := by
      simp [pollingLog]
    rw [List.cons_append, heq, hrun, hlog]
    refine ⟨?_, ?_, ?_⟩
    · simp only [external_append, List.append_assoc]
    · rw [lists_append, hl, hlists, List.length_cons]; omega
    · rw [sleeps_append, hs, hsleeps, List.length_cons]; omega

theorem waitForPods_recording_polling (labels : Labels) (expected : Int)
    (os : List TickOutcome) (n : Nat) (received : List Event)
    (hn : n ≤ os.length) (hos : ∀ x ∈ os.take n, ¬ x.stops expected) :
    waitForPods recordingWorld labels expected n ⟨os, received⟩ =
        ⟨none, ⟨os.drop n, received ++ external (pollingLog labels (os.take n))⟩,
          pollingLog labels (os.take n)⟩
      ∧ lists (pollingLog labels (os.take n)) = n
      ∧ sleeps (pollingLog labels (os.take n)) = n := by
  induction n generalizing os received with
  | zero => simp [waitForPods, pollingLog, lists, sleeps, external]
  | succ n ih =>
    cases os with
    | nil => simp at hn
    | cons x os =>
      obtain ⟨hl, hs, heq⟩ := waitForPods_recording_continue labels expected n x os received
        (hos x (by simp))
      obtain ⟨hrun, hlists, hsleeps⟩ := ih os
        (received ++ external (x.events labels ++ [.sleep 5]))
        (by simp at hn; omega) (fun y hy => hos y (by simp [hy]))
      have hlog : pollingLog labels ((x :: os).take (n + 1))
          = (x.events labels ++ [.sleep 5]) ++ pollingLog labels (os.take n) := by
        simp [pollingLog]
      rw [heq, hrun, hlog]
      refine ⟨?_, ?_, ?_⟩
      · simp only [external_append, List.append_assoc, List.drop_succ_cons]
      · rw [lists_append, hl, hlists]; omega
      · rw [sleeps_append, hs, hsleeps]; omega

/-- Claim C9.  On the environment that plays a sequence of tick outcomes and
records what it is asked: when the first stopping tick (a selector failure, a
list failure, or pods satisfying the readiness predicate) is `o`, after the
non-stopping ticks `pre`, `waitForPods` run for more than `pre.length` ticks
returns the verdict of `o` (that phase's error, or success) with the outcomes
after `o` left unplayed; its log is, for each tick of `pre`, the list call, the
progress line and one sleep of five seconds, then the events of `o` (no list
call when its selector cannot be built); the environment has received exactly
the list calls and sleeps of that log, in that order; there is one list call
per tick up to and including `o` and one sleep per tick of `pre`.  On any
sequence, a run of `n` ticks none of which stops has not returned, and the
environment has received one list call and one sleep for each of them. -/
theorem waitForPods_stops_at_first_stopping_tick (labels : Labels) (expected : Int)
    (pre : List TickOutcome) (o : TickOutcome) (post : List TickOutcome) (fuel : Nat)
    (received : List Event)
    (hpre : ∀ x ∈ pre, ¬ x.stops expected) (ho : o.stops expected)
    (hfuel : pre.length < fuel) :
    ((waitForPods recordingWorld labels expected fuel ⟨pre ++ o :: post, received⟩).result
          = some o.verdict
        ∧ (waitForPods recordingWorld labels expected fuel
            ⟨pre ++ o :: post, received⟩).state.script = post
        ∧ (waitForPods recordingWorld labels expected fuel
            ⟨pre ++ o :: post, received⟩).calls = pollingLog labels pre ++ o.events labels
        ∧ (waitForPods recordingWorld labels expected fuel
            ⟨pre ++ o :: post, received⟩).state.received
            = received ++ external (pollingLog labels pre ++ o.events labels)
        ∧ lists (waitForPods recordingWorld labels expected fuel
            ⟨pre ++ o :: post, received⟩).calls = pre.length + o.listCalls
        ∧ sleeps (waitForPods recordingWorld labels expected fuel
            ⟨pre ++ o :: post, received⟩).calls = pre.length)
      ∧ ∀ (os : List TickOutcome) (n : Nat), n ≤ os.length →
          (∀ x ∈ os.take n, ¬ x.stops expected) →
          (waitForPods recordingWorld labels expected n ⟨os, received⟩).result = none
            ∧ (waitForPods recordingWorld labels expected n ⟨os, received⟩).state.script
                = os.drop n
            ∧ (waitForPods recordingWorld labels expected n ⟨os, received⟩).calls
                = pollingLog labels (os.take n)
            ∧ (waitForPods recordingWorld labels expected n ⟨os, received⟩).state.received
                = received ++ external (pollingLog labels (os.take n))
            ∧ lists (waitForPods recordingWorld labels expected n ⟨os, received⟩).calls = n
            ∧ sleeps (waitForPods recordingWorld labels expected n ⟨os, received⟩).calls
                = n := by
  constructor
  · obtain ⟨hrun, hlists, hsleeps⟩ :=
      waitForPods_recording_reach labels expected pre o post fuel received hpre ho hfuel
    rw [hrun]
    exact ⟨rfl, rfl, rfl, rfl, hlists, hsleeps⟩
  · intro os n hn hos
    obtain ⟨hrun, hlists, hsleeps⟩ :=
      waitForPods_recording_polling labels expected os n received hn hos
    rw [hrun]
    exact ⟨rfl, rfl, rfl, rfl, hlists, hsleeps⟩

theorem waitForPods_stops_at_first_stopping_tick_witness :
    ((waitForPods recordingWorld [("app", "web")] 3 3
        ⟨[.listed [],
          .listed [podIn "Running", podIn "Running", podIn "Pending"],
          .listed [podIn "Running", podIn "Running", podIn "Running"]], []⟩).result
        = some (.ok ())
      ∧ (waitForPods recordingWorld [("app", "web")] 3 3
        ⟨[.listed [],
          .listed [podIn "Running", podIn "Running", podIn "Pending"],
          .listed [podIn "Running", podIn "Running", podIn "Running"]], []⟩).state.received
        = [.list "default" "app=web", .sleep 5, .list "default" "app=web", .sleep 5,
            .list "default" "app=web"]
      ∧ lists (waitForPods recordingWorld [("app", "web")] 3 3
        ⟨[.listed [],
          .listed [podIn "Running", podIn "Running", podIn "Pending"],
          .listed [podIn "Running", podIn "Running", podIn "Running"]], []⟩).calls = 3
      ∧ sleeps (waitForPods recordingWorld [("app", "web")] 3 3
        ⟨[.listed [],
          .listed [podIn "Running", podIn "Running", podIn "Pending"],
          .listed [podIn "Running", podIn "Running", podIn "Running"]], []⟩).calls = 2)
      ∧ ((waitForPods recordingWorld [("app", "web")] 3 2
        ⟨[.listed [], .listed [podIn "Pending"]], []⟩).result = none
      ∧ (waitForPods recordingWorld [("app", "web")] 3 2
        ⟨[.listed [], .listed [podIn "Pending"]], []⟩).state.received
        = [.list "default" "app=web", .sleep 5, .list "default" "app=web", .sleep 5]) :=
  have h := waitForPods_stops_at_first_stopping_tick [("app", "web")] 3
    [.listed [], .listed [podIn "Running", podIn "Running", podIn "Pending"]]
    (.listed [podIn "Running", podIn "Running", podIn "Running"]) [] 3 []
    (by decide) (by decide) (by decide)
  have h₂ := h.2 [.listed [], .listed [podIn "Pending"]] 2 (by decide) (by decide)
  ⟨⟨h.1.1, h.1.2.2.2.1.trans (by decide), h.1.2.2.2.2.1, h.1.2.2.2.2.2⟩,
    h₂.1, h₂.2.2.2.1.trans (by decide)⟩

/-! ## Properties of deploy -/

theorem deploy_not_found {σ : Type} (w : World σ) (s s₁ s₂ : σ) (appFile gvk : String)
    (d : Deployment) (err : StatusError)
    (hread : w.ReadFile "app.yaml" s = (.ok appFile, s₁))
    (hdec : w.Decode appFile = .ok (.deployment d, gvk))
    (hget : w.Get "default" d.Name s₁ = (.error err, s₂)) (hnf : err.IsNotFound = true) :
    (deploy w s).calls = [.get "default" d.Name, .create "default" d]
      ∧ (deploy w s).state = (w.Create "default" d s₂).2
      ∧ (deploy w s).result =
          match (w.Create "default" d s₂).1 with
          | .error e => .error (errorf .create e.Error)
          | .ok resp => returnResponse resp := by
  simp only [deploy, hread, hdec, hget, hnf, if_true]
  split <;> simp_all

theorem deploy_found {σ : Type} (w : World σ) (s s₁ s₂ : σ) (appFile gvk : String)
    (d existing : Deployment)
    (hread : w.ReadFile "app.yaml" s = (.ok appFile, s₁))
    (hdec : w.Decode appFile = .ok (.deployment d, gvk))
    (hget : w.Get "default" d.Name s₁ = (.ok existing, s₂)) :
    (deploy w s).calls = [.get "default" d.Name, .update "default" d]
      ∧ (deploy w s).state = (w.Update "default" d s₂).2
      ∧ (deploy w s).result =
          match (w.Update "default" d s₂).1 with
          | .error e => .error (errorf .update e.Error)
          | .ok resp => returnResponse resp := by
  simp only [deploy, hread, hdec, hget]
  split <;> simp_all

theorem deploy_get_failed {σ : Type} (w : World σ) (s s₁ s₂ : σ) (appFile gvk : String)
    (d : Deployment) (err : StatusError)
    (hread : w.ReadFile "app.yaml" s = (.ok appFile, s₁))
    (hdec : w.Decode appFile = .ok (.deployment d, gvk))
    (hget : w.Get "default" d.Name s₁ = (.error err, s₂)) (hnf : err.IsNotFound = false) :
    (deploy w s).calls = [.get "default" d.Name]
      ∧ (deploy w s).state = s₂
      ∧ (deploy w s).result = .error (errorf .get err.Error) := by
  simp [deploy, hread, hdec, hget, hnf]

/-- Claim C2.  When the specification file decodes to a deployment: if `Get`
reports "not found", `deploy` calls `Create` exactly once and `Update` never;
if `Get` succeeds, `deploy` calls `Update` exactly once and `Create` never. -/
theorem deploy_create_or_update {σ : Type} (w : World σ) (s s₁ : σ) (appFile gvk : String)
    (d : Deployment)
    (hread : w.ReadFile "app.yaml" s = (.ok appFile, s₁))
    (hdec : w.Decode appFile = .ok (.deployment d, gvk)) :
    (∀ err s₂, w.Get "default" d.Name s₁ = (.error err, s₂) → err.IsNotFound = true →
        creates (deploy w s).calls = 1 ∧ updates (deploy w s).calls = 0)
      ∧ (∀ existing s₂, w.Get "default" d.Name s₁ = (.ok existing, s₂) →
        updates (deploy w s).calls = 1 ∧ creates (deploy w s).calls = 0) := by
  constructor
  · intro err s₂ hget hnf
    rw [(deploy_not_found w s s₁ s₂ appFile gvk d err hread hdec hget hnf).1]
    simp [creates, updates]
  · intro existing s₂ hget
    rw [(deploy_found w s s₁ s₂ appFile gvk d existing hread hdec hget).1]
    simp [creates, updates]

theorem deploy_create_or_update_witness :
    (creates (deploy (cannedWorld (.ok "app.yaml")
          (.ok (.deployment webDeployment, "apps/v1, Kind=Deployment"))
          (.error ⟨true, "not found"⟩) (.ok webDeployment) (.ok webDeployment)) ()).calls = 1
        ∧ updates (deploy (cannedWorld (.ok "app.yaml")
          (.ok (.deployment webDeployment, "apps/v1, Kind=Deployment"))
          (.error ⟨true, "not found"⟩) (.ok webDeployment) (.ok webDeployment)) ()).calls = 0)
      ∧ (updates (deploy (cannedWorld (.ok "app.yaml")
          (.ok (.deployment webDeployment, "apps/v1, Kind=Deployment"))
          (.ok webDeployment) (.ok webDeployment) (.ok webDeployment)) ()).calls = 1
        ∧ creates (deploy (cannedWorld (.ok "app.yaml")
          (.ok (.deployment webDeployment, "apps/v1, Kind=Deployment"))
          (.ok webDeployment) (.ok webDeployment) (.ok webDeployment)) ()).calls = 0) :=
  ⟨(deploy_create_or_update (cannedWorld (.ok "app.yaml")
        (.ok (.deployment webDeployment, "apps/v1, Kind=Deployment"))
        (.error ⟨true, "not found"⟩) (.ok webDeployment) (.ok webDeployment)) () ()
      "app.yaml" "apps/v1, Kind=Deployment" webDeployment rfl rfl).1
      ⟨true, "not found"⟩ () rfl rfl,
    (deploy_create_or_update (cannedWorld (.ok "app.yaml")
        (.ok (.deployment webDeployment, "apps/v1, Kind=Deployment"))
        (.ok webDeployment) (.ok webDeployment) (.ok webDeployment)) () ()
      "app.yaml" "apps/v1, Kind=Deployment" webDeployment rfl rfl).2
      webDeployment () rfl⟩

/-! ### Error messages and their tags -/

theorem getElem?_append_of_some {α : Type} (l t : List α) (i : Nat) (c : α)
    (h : l[i]? = some c) : (l ++ t)[i]? = some c := by
  have hi : i < l.length := by
    by_contra hcon
    rw [List.getElem?_eq_none (by omega)] at h
    exact absurd h (by simp)
  rw [List.getElem?_append_left hi]
  exact h

theorem not_tagged (tag a : String) (i : Nat) (c d : Char)
    (hc : tag.data[i]? = some c) (hd : a.data[i]? = some d) (hne : c ≠ d) (e : String) :
    ¬ tag.data <+: (a ++ e).data := by
  rintro ⟨t, ht⟩
  simp only [String.data_append] at ht
  have h1 := getElem?_append_of_some tag.data t i c hc
  have h2 := getElem?_append_of_some a.data e.data i d hd
  rw [ht, h2] at h1
  exact hne (Option.some.inj h1).symm

/-- Claim C3.  When `Get` fails with an error that is not "not found",
`deploy` returns an error after the `Get` call alone (no `Create`, no
`Update`); its message starts with the tag "deployment get error", and no
message of a failed `Create` or a failed `Update` starts with that tag. -/
theorem deploy_get_error_short_circuits {σ : Type} (w : World σ) (s s₁ s₂ : σ)
    (appFile gvk : String) (d : Deployment) (err : StatusError)
    (hread : w.ReadFile "app.yaml" s = (.ok appFile, s₁))
    (hdec : w.Decode appFile = .ok (.deployment d, gvk))
    (hget : w.Get "default" d.Name s₁ = (.error err, s₂)) (hnf : err.IsNotFound = false) :
    (deploy w s).result = .error ("deployment get error: " ++ err.Error)
      ∧ (deploy w s).calls = [.get "default" d.Name]
      ∧ creates (deploy w s).calls = 0 ∧ updates (deploy w s).calls = 0
      ∧ "deployment get error".data <+: ("deployment get error: " ++ err.Error).data
      ∧ ∀ e : String, ¬ "deployment get error".data <+: (errorf .create e).data
          ∧ ¬ "deployment get error".data <+: (errorf .update e).data := by
  obtain ⟨hcalls, -, hres⟩ := deploy_get_failed w s s₁ s₂ appFile gvk d err hread hdec hget hnf
  refine ⟨hres, hcalls, by simp [hcalls, creates], by simp [hcalls, updates], ?_, ?_⟩
  · rw [String.data_append]
    exact ⟨": ".data ++ err.Error.data, by rw [← List.append_assoc]; rfl⟩
  · intro e
    exact ⟨not_tagged _ _ 11 'g' 'e' (by decide) (by decide) (by decide) e,
      not_tagged _ _ 11 'g' 'e' (by decide) (by decide) (by decide) e⟩

theorem deploy_get_error_short_circuits_witness :
    (deploy (cannedWorld (.ok "app.yaml")
        (.ok (.deployment webDeployment, "apps/v1, Kind=Deployment"))
        (.error ⟨false, "forbidden"⟩) (.ok webDeployment) (.ok webDeployment)) ()).result
        = .error "deployment get error: forbidden"
      ∧ (deploy (cannedWorld (.ok "app.yaml")
        (.ok (.deployment webDeployment, "apps/v1, Kind=Deployment"))
        (.error ⟨false, "forbidden"⟩) (.ok webDeployment) (.ok webDeployment)) ()).calls
        = [.get "default" "web"] :=
  have h := deploy_get_error_short_circuits (cannedWorld (.ok "app.yaml")
    (.ok (.deployment webDeployment, "apps/v1, Kind=Deployment"))
    (.error ⟨false, "forbidden"⟩) (.ok webDeployment) (.ok webDeployment)) () () ()
    "app.yaml" "apps/v1, Kind=Deployment" webDeployment ⟨false, "forbidden"⟩ rfl rfl rfl rfl
  ⟨h.1, h.2.1⟩

/-- Counterexample to returning a pair for every successful response.  When
the cluster answers a successful `Create`, or a successful `Update`, with a
resource whose `Replicas` pointer is nil, `deploy` panics at the dereference of
lines 87 and 96 and returns no pair. -/
theorem deploy_unset_replicas_panics :
    (deploy (cannedWorld (.ok "app.yaml")
        (.ok (.deployment webDeployment, "apps/v1, Kind=Deployment"))
        (.error ⟨true, "not found"⟩) (.ok unsetDeployment) (.ok webDeployment)) ()).result
        = .panic "runtime error: invalid memory address or nil pointer dereference"
      ∧ (deploy (cannedWorld (.ok "app.yaml")
        (.ok (.deployment webDeployment, "apps/v1, Kind=Deployment"))
        (.ok webDeployment) (.ok webDeployment) (.ok unsetDeployment)) ()).result
        = .panic "runtime error: invalid memory address or nil pointer dereference"
      ∧ (¬ ∃ pair, (deploy (cannedWorld (.ok "app.yaml")
        (.ok (.deployment webDeployment, "apps/v1, Kind=Deployment"))
        (.error ⟨true, "not found"⟩) (.ok unsetDeployment) (.ok webDeployment)) ()).result
        = .ok pair)
      ∧ ¬ ∃ pair, (deploy (cannedWorld (.ok "app.yaml")
        (.ok (.deployment webDeployment, "apps/v1, Kind=Deployment"))
        (.ok webDeployment) (.ok webDeployment) (.ok unsetDeployment)) ()).result
        = .ok pair := by
  refine ⟨rfl, rfl, ?_, ?_⟩
  · rintro ⟨pair, h⟩
    have hpanic : GoResult.panic
        "runtime error: invalid memory address or nil pointer dereference"
        = GoResult.ok pair := h
    cases hpanic
  · rintro ⟨pair, h⟩
    have hpanic : GoResult.panic
        "runtime error: invalid memory address or nil pointer dereference"
        = GoResult.ok pair := h
    cases hpanic

/-- Claim C4, amended.  When the specification file decodes to a deployment:
after a "not found" `Get` and a successful `Create`, and after a successful
`Get` and a successful `Update`, if the resource the cluster answered with has
its replica count set (`Replicas` points to `r`), `deploy` returns without
error the pod-template labels and the replica count `r` of that resource, not
those of the desired deployment. -/
theorem deploy_returns_response {σ : Type} (w : World σ) (s s₁ : σ) (appFile gvk : String)
    (d : Deployment)
    (hread : w.ReadFile "app.yaml" s = (.ok appFile, s₁))
    (hdec : w.Decode appFile = .ok (.deployment d, gvk)) :
    (∀ err s₂ resp s₃ r, w.Get "default" d.Name s₁ = (.error err, s₂) →
        err.IsNotFound = true → w.Create "default" d s₂ = (.ok resp, s₃) →
        resp.Spec.Replicas = some r →
        (deploy w s).result = .ok (resp.Spec.Template.Labels, r))
      ∧ (∀ existing s₂ resp s₃ r, w.Get "default" d.Name s₁ = (.ok existing, s₂) →
        w.Update "default" d s₂ = (.ok resp, s₃) → resp.Spec.Replicas = some r →
        (deploy w s).result = .ok (resp.Spec.Template.Labels, r)) := by
  constructor
  · intro err s₂ resp s₃ r hget hnf hcreate hr
    rw [(deploy_not_found w s s₁ s₂ appFile gvk d err hread hdec hget hnf).2.2, hcreate]
    simp [returnResponse, hr]
  · intro existing s₂ resp s₃ r hget hupdate hr
    rw [(deploy_found w s s₁ s₂ appFile gvk d existing hread hdec hget).2.2, hupdate]
    simp [returnResponse, hr]

theorem deploy_returns_response_witness :
    (deploy (cannedWorld (.ok "app.yaml")
        (.ok (.deployment webDeployment, "apps/v1, Kind=Deployment"))
        (.error ⟨true, "not found"⟩) (.ok answeredDeployment) (.ok webDeployment)) ()).result
        = .ok ([("app", "web"), ("tier", "front")], 5)
      ∧ (deploy (cannedWorld (.ok "app.yaml")
        (.ok (.deployment webDeployment, "apps/v1, Kind=Deployment"))
        (.ok webDeployment) (.ok webDeployment) (.ok answeredDeployment)) ()).result
        = .ok ([("app", "web"), ("tier", "front")], 5) :=
  ⟨(deploy_returns_response (cannedWorld (.ok "app.yaml")
        (.ok (.deployment webDeployment, "apps/v1, Kind=Deployment"))
        (.error ⟨true, "not found"⟩) (.ok answeredDeployment) (.ok webDeployment)) () ()
      "app.yaml" "apps/v1, Kind=Deployment" webDeployment rfl rfl).1
      ⟨true, "not found"⟩ () answeredDeployment () 5 rfl rfl rfl rfl,
    (deploy_returns_response (cannedWorld (.ok "app.yaml")
        (.ok (.deployment webDeployment, "apps/v1, Kind=Deployment"))
        (.ok webDeployment) (.ok webDeployment) (.ok answeredDeployment)) () ()
      "app.yaml" "apps/v1, Kind=Deployment" webDeployment rfl rfl).2
      webDeployment () answeredDeployment () 5 rfl rfl rfl⟩

/-- Claim C8.  When the specification file cannot be read, cannot be decoded,
or decodes to an object that is not a deployment, `deploy` returns an error and
makes no cluster call: its log is empty. -/
theorem deploy_input_error_no_cluster_call {σ : Type} (w : World σ) (s : σ)
    (h : (∃ err s₁, w.ReadFile "app.yaml" s = (.error err, s₁))
      ∨ ∃ appFile s₁, w.ReadFile "app.yaml" s = (.ok appFile, s₁)
          ∧ ((∃ err, w.Decode appFile = .error err)
            ∨ ∃ gvk, w.Decode appFile = .ok (.other, gvk))) :
    (∃ msg, (deploy w s).result = .error msg) ∧ (deploy w s).calls = [] := by
  rcases h with ⟨err, s₁, hread⟩ | ⟨appFile, s₁, hread, ⟨err, hdec⟩ | ⟨gvk, hdec⟩⟩
  · simp [deploy, hread]
  · simp [deploy, hread, hdec]
  · simp [deploy, hread, hdec]

theorem deploy_input_error_no_cluster_call_witness :
    ((∃ msg, (deploy (cannedWorld (.error "open app.yaml: no such file or directory")
          (.error "unused") (.ok webDeployment) (.ok webDeployment) (.ok webDeployment))
          ()).result = .error msg)
        ∧ (deploy (cannedWorld (.error "open app.yaml: no such file or directory")
          (.error "unused") (.ok webDeployment) (.ok webDeployment) (.ok webDeployment))
          ()).calls = [])
      ∧ ((∃ msg, (deploy (cannedWorld (.ok "app.yaml") (.error "yaml: line 1")
          (.ok webDeployment) (.ok webDeployment) (.ok webDeployment)) ()).result
            = .error msg)
        ∧ (deploy (cannedWorld (.ok "app.yaml") (.error "yaml: line 1")
          (.ok webDeployment) (.ok webDeployment) (.ok webDeployment)) ()).calls = [])
      ∧ ((∃ msg, (deploy (cannedWorld (.ok "app.yaml") (.ok (.other, "/v1, Kind=Service"))
          (.ok webDeployment) (.ok webDeployment) (.ok webDeployment)) ()).result
            = .error msg)
        ∧ (deploy (cannedWorld (.ok "app.yaml") (.ok (.other, "/v1, Kind=Service"))
          (.ok webDeployment) (.ok webDeployment) (.ok webDeployment)) ()).calls = []) :=
  ⟨deploy_input_error_no_cluster_call _ () (Or.inl ⟨_, (), rfl⟩),
    deploy_input_error_no_cluster_call _ () (Or.inr ⟨"app.yaml", (), rfl, Or.inl ⟨_, rfl⟩⟩),
    deploy_input_error_no_cluster_call _ ()
      (Or.inr ⟨"app.yaml", (), rfl, Or.inr ⟨"/v1, Kind=Service", rfl⟩⟩)⟩

/-- Counterexample to keying by the desired namespace.  For the deployment "web" declared in namespace
"prod", `deploy` addresses `Get` and `Create` to namespace "default": the calls
are not keyed by the namespace of the desired deployment. -/
theorem deploy_namespace_not_from_desired :
    (deploy (cannedWorld (.ok "app.yaml")
        (.ok (.deployment prodDeployment, "apps/v1, Kind=Deployment"))
        (.error ⟨true, "not found"⟩) (.ok prodDeployment) (.ok prodDeployment)) ()).calls
        = [.get "default" "web", .create "default" prodDeployment]
      ∧ prodDeployment.Namespace = "prod"
      ∧ ¬ ∀ c ∈ (deploy (cannedWorld (.ok "app.yaml")
            (.ok (.deployment prodDeployment, "apps/v1, Kind=Deployment"))
            (.error ⟨true, "not found"⟩) (.ok prodDeployment) (.ok prodDeployment)) ()).calls,
          c.namespaceArg = some prodDeployment.Namespace := by
  refine ⟨rfl, rfl, ?_⟩
  intro h
  have hget := h (.get "default" "web") (List.mem_cons_self _ _)
  revert hget
  decide

/-- Claim C7, amended.  When the specification file decodes to a deployment,
the first cluster call of `deploy` is `Get` in namespace "default" with the
name of the desired deployment, and every cluster call of `deploy` is that
`Get`, or `Create` or `Update` of the desired deployment in namespace
"default": the namespace is the constant "default", the name is the desired
deployment's name. -/
theorem deploy_calls_keyed_by_default_and_name {σ : Type} (w : World σ) (s s₁ : σ)
    (appFile gvk : String) (d : Deployment)
    (hread : w.ReadFile "app.yaml" s = (.ok appFile, s₁))
    (hdec : w.Decode appFile = .ok (.deployment d, gvk)) :
    (deploy w s).calls.head? = some (.get "default" d.Name)
      ∧ ∀ c ∈ (deploy w s).calls,
          c.namespaceArg = some "default" ∧ c.nameArg = some d.Name
            ∧ (c = .get "default" d.Name ∨ c = .create "default" d
                ∨ c = .update "default" d) := by
  rcases hget : w.Get "default" d.Name s₁ with ⟨_ | existing, s₂⟩
  · rename_i err
    cases hnf : err.IsNotFound
    · rw [(deploy_get_failed w s s₁ s₂ appFile gvk d err hread hdec hget hnf).1]
      simp [Event.namespaceArg, Event.nameArg]
    · rw [(deploy_not_found w s s₁ s₂ appFile gvk d err hread hdec hget hnf).1]
      simp [Event.namespaceArg, Event.nameArg]
  · rw [(deploy_found w s s₁ s₂ appFile gvk d existing hread hdec hget).1]
    simp [Event.namespaceArg, Event.nameArg]

theorem deploy_calls_keyed_by_default_and_name_witness :
    (deploy (cannedWorld (.ok "app.yaml")
        (.ok (.deployment prodDeployment, "apps/v1, Kind=Deployment"))
        (.ok answeredDeployment) (.ok prodDeployment) (.ok prodDeployment)) ()).calls.head?
        = some (.get "default" "web")
      ∧ ∀ c ∈ (deploy (cannedWorld (.ok "app.yaml")
            (.ok (.deployment prodDeployment, "apps/v1, Kind=Deployment"))
            (.ok answeredDeployment) (.ok prodDeployment) (.ok prodDeployment)) ()).calls,
          c.namespaceArg = some "default" ∧ c.nameArg = some "web"
            ∧ (c = .get "default" "web" ∨ c = .create "default" prodDeployment
                ∨ c = .update "default" prodDeployment) :=
  deploy_calls_keyed_by_default_and_name (cannedWorld (.ok "app.yaml")
      (.ok (.deployment prodDeployment, "apps/v1, Kind=Deployment"))
      (.ok answeredDeployment) (.ok prodDeployment) (.ok prodDeployment)) () ()
    "app.yaml" "apps/v1, Kind=Deployment" prodDeployment rfl rfl

/-! ### Convergence over the resource store -/

theorem Store.put_same (st : Store) (ns name : String) (d : Deployment) :
    (st.put ns name d) ns name = some d := by
  simp [Store.put]

theorem Store.put_put (st : Store) (ns name : String) (d : Deployment) :
    (st.put ns name d).put ns name d = st.put ns name d := by
  funext ns' name'
  simp only [Store.put]
  split <;> rfl

theorem deploy_cluster_absent (d : Deployment) (st : Store)
    (hns : d.Namespace = "default") (h : st d.Namespace d.Name = none) :
    (deploy (clusterWorld d) st).calls = [.get "default" d.Name, .create "default" d]
      ∧ (deploy (clusterWorld d) st).state = st.put d.Namespace d.Name d
      ∧ (deploy (clusterWorld d) st).result = returnResponse d := by
  have hget : (clusterWorld d).Get "default" d.Name st
      = (.error ⟨true, "deployments.apps not found"⟩, st) := by
    rw [hns] at h
    simp [clusterWorld, h]
  have hcreate : (clusterWorld d).Create "default" d st
      = (.ok d, st.put d.Namespace d.Name d) := by
    simp [clusterWorld, h]
  obtain ⟨hc, hs, hr⟩ := deploy_not_found (clusterWorld d) st st st "app.yaml"
    "apps/v1, Kind=Deployment" d ⟨true, "deployments.apps not found"⟩ rfl rfl hget rfl
  rw [hcreate] at hs hr
  exact ⟨hc, hs, hr⟩

theorem deploy_cluster_present (d existing : Deployment) (st : Store)
    (hns : d.Namespace = "default") (h : st d.Namespace d.Name = some existing) :
    (deploy (clusterWorld d) st).calls = [.get "default" d.Name, .update "default" d]
      ∧ (deploy (clusterWorld d) st).state = st.put d.Namespace d.Name d
      ∧ (deploy (clusterWorld d) st).result = returnResponse d := by
  have hget : (clusterWorld d).Get "default" d.Name st = (.ok existing, st) := by
    rw [hns] at h
    simp [clusterWorld, h]
  have hupdate : (clusterWorld d).Update "default" d st
      = (.ok d, st.put d.Namespace d.Name d) := by
    simp [clusterWorld, h]
  obtain ⟨hc, hs, hr⟩ := deploy_found (clusterWorld d) st st st "app.yaml"
    "apps/v1, Kind=Deployment" d existing rfl rfl hget
  rw [hupdate] at hs hr
  exact ⟨hc, hs, hr⟩

/-- Counterexample to convergence for every desired deployment.  Over the
resource store, from the empty store, two successive calls of `deploy` with the
deployment "web" declared in namespace "prod": the first makes `Get` in
"default" then `Create`, which stores the resource under ("prod", "web"); the
second finds nothing under ("default", "web") and makes `Create` again, never
`Update`, and fails because the resource exists. -/
theorem deploy_twice_other_namespace_never_updates :
    Store.empty prodDeployment.Namespace prodDeployment.Name = none
      ∧ (deploy (clusterWorld prodDeployment) Store.empty).calls
          = [.get "default" "web", .create "default" prodDeployment]
      ∧ (deploy (clusterWorld prodDeployment)
          (deploy (clusterWorld prodDeployment) Store.empty).state).calls
          = [.get "default" "web", .create "default" prodDeployment]
      ∧ updates (deploy (clusterWorld prodDeployment)
          (deploy (clusterWorld prodDeployment) Store.empty).state).calls = 0
      ∧ (deploy (clusterWorld prodDeployment)
          (deploy (clusterWorld prodDeployment) Store.empty).state).result
          = .error "deployment error: deployments.apps already exists" :=
  ⟨rfl, rfl, rfl, rfl, rfl⟩

/-- Claim C5, amended.  Over the resource store in which `Create` stores the
given resource under its key and `Update` replaces the stored resource, for a
desired deployment declared in namespace "default" and a store with no resource
under its key: the first of two successive calls of `deploy` makes `Get` then
`Create`, the second makes `Get` then `Update`, the second leaves the store as
the first left it and returns what the first returned, and the resource stored
at the end has the pod-template labels and the replica count of the desired
deployment. -/
theorem deploy_twice_converges (d : Deployment) (st : Store)
    (hns : d.Namespace = "default") (h : st d.Namespace d.Name = none) :
    (deploy (clusterWorld d) st).calls = [.get "default" d.Name, .create "default" d]
      ∧ (deploy (clusterWorld d) (deploy (clusterWorld d) st).state).calls
          = [.get "default" d.Name, .update "default" d]
      ∧ (deploy (clusterWorld d) (deploy (clusterWorld d) st).state).state
          = (deploy (clusterWorld d) st).state
      ∧ (deploy (clusterWorld d) (deploy (clusterWorld d) st).state).result
          = (deploy (clusterWorld d) st).result
      ∧ ∃ stored,
          (deploy (clusterWorld d) (deploy (clusterWorld d) st).state).state
              d.Namespace d.Name = some stored
            ∧ stored.Spec.Template.Labels = d.Spec.Template.Labels
            ∧ stored.Spec.Replicas = d.Spec.Replicas := by
  obtain ⟨hc₁, hs₁, hr₁⟩ := deploy_cluster_absent d st hns h
  obtain ⟨hc₂, hs₂, hr₂⟩ := deploy_cluster_present d d (st.put d.Namespace d.Name d) hns
    (Store.put_same st d.Namespace d.Name d)
  rw [hs₁]
  refine ⟨hc₁, hc₂, ?_, ?_, d, ?_, rfl, rfl⟩
  · rw [hs₂, Store.put_put]
  · rw [hr₂, hr₁]
  · rw [hs₂, Store.put_put, Store.put_same]

theorem deploy_twice_converges_witness :
    (deploy (clusterWorld webDeployment) Store.empty).calls
        = [.get "default" "web", .create "default" webDeployment]
      ∧ (deploy (clusterWorld webDeployment)
          (deploy (clusterWorld webDeployment) Store.empty).state).calls
          = [.get "default" "web", .update "default" webDeployment]
      ∧ (deploy (clusterWorld webDeployment)
          (deploy (clusterWorld webDeployment) Store.empty).state).result
          = .ok ([("app", "web")], 3)
      ∧ ∃ stored,
          (deploy (clusterWorld webDeployment)
            (deploy (clusterWorld webDeployment) Store.empty).state).state "default" "web"
              = some stored
            ∧ stored.Spec.Template.Labels = [("app", "web")]
            ∧ stored.Spec.Replicas = some 3 :=
  have h := deploy_twice_converges webDeployment Store.empty rfl rfl
  ⟨h.1, h.2.1, h.2.2.2.1.trans rfl, h.2.2.2.2⟩

/-! ### Which site an error message comes from -/

end K8sManager
